import Mathlib

/-!
Shallow embedding of `src/mca/ptl/usock/ptl_usock.c` (the usock PTL client
transport): connection establishment, the connect handshake wire layout,
the acknowledgment receive logic, and the asynchronous dispatch entry
points.  Strings from the C side are modelled as lists of bytes
(`List Nat`) or lists of characters; machine integers are `Nat`/`Int`
with explicit reduction modulo powers of two where overflow matters.
-/

namespace PtlUsock

/-! ## Status codes

Modelled from the spec: the `pmix_status_t` constants live in headers that
are not part of the visible source; the exact numeric values are abstract
but pairwise distinct, with `PMIX_SUCCESS = 0` and errors negative. -/

def PMIX_SUCCESS : Int := 0

def PMIX_ERROR : Int := -1

def PMIX_ERR_OUT_OF_RESOURCE : Int := -2

def PMIX_ERR_NOT_SUPPORTED : Int := -9

def PMIX_ERR_UNREACH : Int := -12

def PMIX_ERR_NOT_FOUND : Int := -17

def PMIX_ERR_SERVER_NOT_AVAIL : Int := -24

def PMIX_ERR_READY_FOR_HANDSHAKE : Int := -27

/-- Modelled from the spec: the errno value `ENOPROTOOPT` ("protocol does
not support the option"), used by `recv_connect_ack` to detect a transport
without a receive-timeout option. -/
def ENOPROTOOPT : Nat := 92

/-! ## Byte-level model of the connect-handshake message

`send_connect_ack` (ptl_usock.c:232-341) assembles a header plus a
payload of NUL-terminated strings, a fixed-width rank and a one-byte
flag, by `memcpy`/`strlen` arithmetic into a zero-initialized buffer. -/

/-- C `strlen` on a byte list: number of bytes before the first NUL. -/
def strlenB (s : List Nat) : Nat := (s.takeWhile (fun b => b ≠ 0)).length

/-- The bytes `memcpy(dst, s, strlen(s))` copies: the prefix before the
first NUL. -/
def cbytes (s : List Nat) : List Nat := s.takeWhile (fun b => b ≠ 0)

/-- Little-endian 4-byte layout of a C `int`/`uint32` value, as produced
by `memcpy(msg+csize, &rank, sizeof(int))` on a matching-architecture
peer (the wire format performs no byte-order conversion). -/
def intLE (n : Nat) : List Nat :=
  [n % 256, n / 256 % 256, n / 65536 % 256, n / 16777216 % 256]

/-- Inverse of `intLE` for values below `2^32`. -/
def decodeIntLE (b0 b1 b2 b3 : Nat) : Nat :=
  b0 + 256 * b1 + 65536 * b2 + 16777216 * b3

/-- The fixed bfrops module identifier `"v20"` (ptl_usock.c:260). -/
def bfropsBytes : List Nat := [118, 50, 48]

/-- The gds module identifier: `"ds12"` when dstore is enabled, `"hash"`
otherwise (ptl_usock.c:263-267). -/
def gdsBytes (dstore : Bool) : List Nat :=
  if dstore then [100, 115, 49, 50] else [104, 97, 115, 104]

/-- The buffer-description flag byte: 2 (fully described) in debug builds,
1 otherwise (ptl_usock.c:324-328). -/
def flagByte (debug : Bool) : Nat := if debug then 2 else 1

/-- Inputs consumed by `send_connect_ack`: the process identity
(`pmix_globals.myid`), the `PMIX_VERSION` string, the credential returned
by `pmix_psec.create_cred` together with its reported length and status,
the available security module list, the two compile-time switches, and
the outcomes of the allocation and the blocking send. -/
structure SendAckInput where
  myNspace : List Nat
  myRank : Nat
  version : List Nat
  credRC : Int
  cred : Option (List Nat)
  credLen : Nat
  sec : List Nat
  dstore : Bool
  debug : Bool
  mallocOK : Bool
  sendOK : Bool

/-- The fixed-size usock message preamble (`pmix_usock_hdr_t`). -/
structure UsockHdr where
  pindex : Int
  tag : Nat
  nbytes : Nat

/-- `hdr.nbytes` exactly as computed at ptl_usock.c:250,273-276:
`sdsize + strlen(PMIX_VERSION)+1 + len+1 + (strlen(sec)+1) +
(strlen(bfrops)+1) + 1 + (strlen(gds)+1)` with
`sdsize = strlen(nspace)+1+sizeof(int)`. -/
def hdrNbytes (inp : SendAckInput) : Nat :=
  (strlenB inp.myNspace + 1 + 4)
  + (strlenB inp.version + 1) + (inp.credLen + 1)
  + (strlenB inp.sec + 1)
  + (strlenB bfropsBytes + 1) + 1
  + (strlenB (gdsBytes inp.dstore) + 1)

/-- The header written at the front of the connect message:
`pindex = -1`, `tag = UINT32_MAX` (ptl_usock.c:245-247). -/
def connectHdr (inp : SendAckInput) : UsockHdr :=
  ⟨-1, 4294967295, hdrNbytes inp⟩

/-- The payload bytes written by the `memcpy` sequence of
ptl_usock.c:290-333, in order: nspace, NUL, rank, version, NUL,
credential (a single NUL when absent), NUL, sec, NUL, bfrops, NUL, flag,
gds.  Each skipped `+1` position keeps the 0 planted by the initial
`memset`. -/
def writtenFields (inp : SendAckInput) : List Nat :=
  cbytes inp.myNspace ++ [0]
  ++ intLE inp.myRank
  ++ cbytes inp.version ++ [0]
  ++ (match inp.cred with
      | some c => cbytes c ++ [0]
      | none => [0])
  ++ cbytes inp.sec ++ [0]
  ++ cbytes bfropsBytes ++ [0]
  ++ [flagByte inp.debug]
  ++ cbytes (gdsBytes inp.dstore)

/-- The payload portion of the message as sent: a zero-initialized buffer
of `hdr.nbytes` bytes whose front is overwritten by the field sequence
(ptl_usock.c:279-287 allocate and zero `sizeof(hdr) + hdr.nbytes` bytes;
ptl_usock.c:335 sends all of them). -/
def sentPayload (inp : SendAckInput) : List Nat :=
  (writtenFields inp ++ List.replicate (hdrNbytes inp) 0).take (hdrNbytes inp)

/-- Return status of `send_connect_ack` (ptl_usock.c:232-341): a failing
`create_cred` aborts with its status before any bytes are sent; a failed
allocation yields `PMIX_ERR_OUT_OF_RESOURCE`; a failed blocking send
yields `PMIX_ERR_UNREACH`. -/
def send_connect_ack (inp : SendAckInput) : Int :=
  if inp.credRC ≠ PMIX_SUCCESS then inp.credRC
  else if inp.mallocOK = false then PMIX_ERR_OUT_OF_RESOURCE
  else if inp.sendOK = false then PMIX_ERR_UNREACH
  else PMIX_SUCCESS

/-- The field values the receiver recovers from a handshake payload. -/
structure UnpackedAck where
  nspace : List Nat
  rank : Nat
  version : List Nat
  cred : List Nat
  sec : List Nat
  bfrops : List Nat
  flag : Nat
  gds : List Nat

/-- Read one NUL-terminated string: the bytes before the first NUL, and
the remainder after it (the whole list when no NUL occurs, matching the
last field which needs no trailing NUL). -/
def readCString : List Nat → List Nat × List Nat
  | [] => ([], [])
  | b :: rest =>
    if b = 0 then ([], rest)
    else
      let p := readCString rest
      (b :: p.1, p.2)

/-- Modelled from the spec: the receiver-side unmarshal of the connect
handshake payload (the daemon-side reader is not part of the visible
source).  It consumes, in the fixed field order of the spec, a
NUL-terminated nspace, a fixed-width rank, NUL-terminated version,
credential, security-module list and bfrops identifier, one flag byte,
and a final gds identifier that needs no trailing NUL. -/
def unmarshalAck (p : List Nat) : Option UnpackedAck :=
  match readCString p with
  | (ns, b0 :: b1 :: b2 :: b3 :: r2) =>
    match readCString r2 with
    | (ver, r3) =>
      match readCString r3 with
      | (cred, r4) =>
        match readCString r4 with
        | (sec, r5) =>
          match readCString r5 with
          | (bfr, f :: r7) =>
            some ⟨ns, decodeIntLE b0 b1 b2 b3, ver, cred, sec, bfr, f,
                  (readCString r7).1⟩
          | (_, []) => none
  | _ => none

/-! ## recv_connect_ack (ptl_usock.c:346-408)

The function's interactions with the socket and the security capability
are captured as an oracle record: the outcome of the `getsockopt` probe,
of the two `setsockopt` calls, of the two blocking reads (each a status
plus, on success, the value read), and of `pmix_psec.client_handshake`. -/

structure RecvAckEnv where
  /-- `some errno` when `getsockopt(SO_RCVTIMEO)` fails, `none` on
  success. -/
  getsockoptErr : Option Nat
  /-- whether `setsockopt` installing the 2-second timeout succeeds. -/
  setTimeoutOK : Bool
  /-- status of the blocking read of the acknowledgment status. -/
  replyRC : Int
  /-- the acknowledgment status value read (used when `replyRC` is
  success). -/
  replyVal : Int
  /-- status returned by `pmix_psec.client_handshake`. -/
  handshakeRC : Int
  /-- status of the blocking read of the assigned peer index. -/
  pindexRC : Int
  /-- the peer-index value read (used when `pindexRC` is success). -/
  pindexVal : Int
  /-- whether `setsockopt` restoring the saved timeout succeeds. -/
  restoreOK : Bool

/-- Observable outcome of `recv_connect_ack`: the returned status, the
value written into `pmix_globals.pindex` (if any), whether the
authentication handshake capability was invoked, whether the peer-index
read was attempted, whether the 2-second timeout was installed, and
whether the restore `setsockopt` was issued. -/
structure RecvAckResult where
  status : Int
  pindexWritten : Option Int
  handshakeInvoked : Bool
  pindexReadTried : Bool
  timeoutSet : Bool
  restoreTried : Bool

/-- ptl_usock.c:394-405: read the peer index; on success restore the
saved receive timeout when one had been saved (`sockopt` true), failing
with `PMIX_ERR_UNREACH` if the restoring `setsockopt` fails. -/
def afterAck (env : RecvAckEnv) (sockopt timeoutSet hs : Bool) : RecvAckResult :=
  if env.pindexRC ≠ PMIX_SUCCESS then
    ⟨env.pindexRC, none, hs, true, timeoutSet, false⟩
  else if sockopt then
    if env.restoreOK then
      ⟨PMIX_SUCCESS, some env.pindexVal, hs, true, timeoutSet, true⟩
    else
      ⟨PMIX_ERR_UNREACH, some env.pindexVal, hs, true, timeoutSet, true⟩
  else
    ⟨PMIX_SUCCESS, some env.pindexVal, hs, true, timeoutSet, false⟩

/-- ptl_usock.c:376-389: read the status reply; on the ready-for-handshake
sentinel run `client_handshake` and abort with its error on failure; any
other non-success reply is returned verbatim. -/
def recvBody (env : RecvAckEnv) (sockopt timeoutSet : Bool) : RecvAckResult :=
  if env.replyRC ≠ PMIX_SUCCESS then
    ⟨env.replyRC, none, false, false, timeoutSet, false⟩
  else if env.replyVal = PMIX_ERR_READY_FOR_HANDSHAKE then
    if env.handshakeRC ≠ PMIX_SUCCESS then
      ⟨env.handshakeRC, none, true, false, timeoutSet, false⟩
    else
      afterAck env sockopt timeoutSet true
  else if env.replyVal ≠ PMIX_SUCCESS then
    ⟨env.replyVal, none, false, false, timeoutSet, false⟩
  else
    afterAck env sockopt timeoutSet false

/-- `recv_connect_ack` (ptl_usock.c:346-408).  ptl_usock.c:356-373: probe
the current `SO_RCVTIMEO`; a probe failure with `ENOPROTOOPT` disables
the timeout machinery and proceeds, any other probe failure is
`PMIX_ERR_UNREACH`; a successful probe installs a 2-second timeout,
failing with `PMIX_ERR_UNREACH` if that `setsockopt` fails. -/
def recv_connect_ack (env : RecvAckEnv) : RecvAckResult :=
  match env.getsockoptErr with
  | some e =>
    if e = ENOPROTOOPT then recvBody env false false
    else ⟨PMIX_ERR_UNREACH, none, false, false, false, false⟩
  | none =>
    if env.setTimeoutOK then recvBody env true true
    else ⟨PMIX_ERR_UNREACH, none, false, false, false, false⟩

/-! ## connect_to_peer (ptl_usock.c:92-188)

The global state touched by the function (`pmix_globals`,
`pmix_client_globals.myserver`) plus instrumentation counters for the
externally visible actions: sockets opened, `CLOSE_THE_SOCKET` calls,
and `pmix_event_add` calls on the receive event. -/

structure RankInfo where
  nspace : List Char
  rank : Nat

structure GlobalState where
  /-- `pmix_globals.connected`. -/
  connected : Bool
  /-- `pmix_globals.pindex`. -/
  pindex : Int
  /-- `pmix_client_globals.myserver->sd`. -/
  myserverSd : Int
  /-- `pmix_client_globals.myserver->info` (nspace and rank). -/
  myserverInfo : Option RankInfo
  /-- whether the socket has been switched to non-blocking mode. -/
  nonblocking : Bool
  /-- `myserver->recv_event` assigned via `pmix_event_assign`. -/
  recvEvAssigned : Bool
  /-- `myserver->recv_ev_active`. -/
  recvEvActive : Bool
  /-- `myserver->send_event` assigned via `pmix_event_assign`. -/
  sendEvAssigned : Bool
  /-- `myserver->send_ev_active`. -/
  sendEvActive : Bool
  /-- number of `pmix_event_add` calls issued for the receive event. -/
  recvAddCount : Nat
  /-- number of `CLOSE_THE_SOCKET` calls issued. -/
  closeCount : Nat
  /-- number of sockets successfully opened by `pmix_ptl_base_connect`. -/
  socketsOpened : Nat

/-- `CLOSE_THE_SOCKET(sd)` (ptl_usock.c:152,158). -/
def closeSocket (st : GlobalState) : GlobalState :=
  { st with closeCount := st.closeCount + 1 }

/-- Environment of one `connect_to_peer` call: the role check, the
`PMIX_SERVER_URI` environment value, the `access(uri[2], R_OK)` outcome,
the outcome of `pmix_ptl_base_connect`, and the oracles of the two
handshake halves. -/
structure ConnectEnv where
  /-- `PMIX_PROC_IS_CLIENT`. -/
  isClient : Bool
  /-- `getenv("PMIX_SERVER_URI")`, as a character list. -/
  serverURI : Option (List Char)
  /-- whether `access(uri[2], R_OK)` returns 0. -/
  accessOK : Bool
  /-- status returned by `pmix_ptl_base_connect`. -/
  connectRC : Int
  /-- the socket descriptor produced when `connectRC` is success. -/
  connectSd : Int
  sendInput : SendAckInput
  recvEnv : RecvAckEnv

/-- Modelled from the spec: `pmix_argv_split(evar, ':')` (src/util/argv.c
is not part of the visible source) splits on `:` into the list of
non-empty fields. -/
def splitOnColon : List Char → List (List Char)
  | [] => [[]]
  | c :: rest =>
    if c = ':' then [] :: splitOnColon rest
    else
      match splitOnColon rest with
      | f :: fs => (c :: f) :: fs
      | [] => [[c]]

/-- Modelled from the spec: the non-empty fields of the descriptor. -/
def argvSplit (l : List Char) : List (List Char) :=
  (splitOnColon l).filter (fun f => f ≠ [])

/-- Accumulate the value of a leading digit run, C-style. -/
def digitsVal : List Char → Nat → Nat
  | c :: rest, acc =>
    if c.isDigit then digitsVal rest (acc * 10 + (c.toNat - 48)) else acc
  | [], acc => acc

/-- Strip one optional leading sign, reporting whether it was a minus. -/
def stripSign : List Char → Bool × List Char
  | [] => (false, [])
  | c :: rest =>
    if c = '-' then (true, rest)
    else if c = '+' then (false, rest)
    else (false, c :: rest)

/-- Modelled from the ISO C library: `strtoull(s, NULL, 10)` — skip
leading whitespace, accept an optional sign, consume the longest digit
run (an empty run yields 0), clamp an overflowing magnitude to
`ULLONG_MAX`, and negate modulo `2^64` under a leading minus. -/
def strtoull10 (s : List Char) : Nat :=
  let p := stripSign (s.dropWhile (fun c => c.isWhitespace))
  let v := digitsVal p.2 0
  let w := if 18446744073709551615 < v then 18446744073709551615 else v
  if p.1 then (18446744073709551616 - w % 18446744073709551616) % 18446744073709551616
  else w

/-- ptl_usock.c:128: the rank stored into `myserver->info->rank`
(`strtoull` narrowed to the 32-bit `pmix_rank_t`). -/
def parseRank (s : List Char) : Nat := strtoull10 s % 4294967296

/-- A string that is entirely valid unsigned-integer text: non-empty and
all decimal digits. -/
def validUnsignedText (l : List Char) : Bool :=
  match l with
  | [] => false
  | _ => l.all (fun c => c.isDigit)

/-- ptl_usock.c:118-187: the remainder of `connect_to_peer` once the
descriptor has been split into `uri`: store the server nspace (truncated
to the 255-byte `PMIX_MAX_NSLEN`, a constant not in the visible source)
and rank, check `access` on the path, open the connection, run
`send_connect_ack` then `recv_connect_ack` (closing the socket if either
fails), then mark the connection established, switch to non-blocking
mode, and register the receive event (active) and send event
(inactive). -/
def connectWithURI (uri : List (List Char)) (env : ConnectEnv)
    (st : GlobalState) : Int × GlobalState :=
  let st := { st with
    myserverInfo := some ⟨(uri.getD 0 []).take 255, parseRank (uri.getD 1 [])⟩ }
  if env.accessOK = false then (PMIX_ERR_NOT_FOUND, st)
  else if env.connectRC ≠ PMIX_SUCCESS then (env.connectRC, st)
  else
    let st := { st with
      socketsOpened := st.socketsOpened + 1
      myserverSd := env.connectSd }
    let rc := send_connect_ack env.sendInput
    if rc ≠ PMIX_SUCCESS then (rc, closeSocket st)
    else
      let r := recv_connect_ack env.recvEnv
      let st := { st with pindex := r.pindexWritten.getD st.pindex }
      if r.status ≠ PMIX_SUCCESS then (r.status, closeSocket st)
      else
        (PMIX_SUCCESS,
         { st with
           connected := true
           nonblocking := true
           recvEvAssigned := true
           recvEvActive := true
           recvAddCount := st.recvAddCount + 1
           sendEvAssigned := true
           sendEvActive := false })

/-- `connect_to_peer` (ptl_usock.c:92-188): role check, rendezvous
descriptor lookup and 3-field split, then `connectWithURI`. -/
def connect_to_peer (env : ConnectEnv) (st : GlobalState) : Int × GlobalState :=
  if env.isClient = false then (PMIX_ERR_NOT_SUPPORTED, st)
  else
    match env.serverURI with
    | none => (PMIX_ERR_SERVER_NOT_AVAIL, st)
    | some evar =>
      if (argvSplit evar).length ≠ 3 then (PMIX_ERROR, st)
      else connectWithURI (argvSplit evar) env st

/-! ## Asynchronous dispatch entry points (ptl_usock.c:190-230) -/

/-- The `pmix_ptl_sr_t` request constructed by `send_recv`. -/
structure PtlSr where
  peer : Nat
  bfr : Nat
  cbfunc : Nat
  cbdata : Nat

/-- The `pmix_ptl_queue_t` request constructed by `send_oneway`. -/
structure PtlQueue where
  peer : Nat
  buf : Nat
  tag : Nat

/-- Observable outcome of `send_recv`: returned status, the peer retained
via `PMIX_RETAIN`, and the request handed to `PMIX_THREADSHIFT` bound to
`pmix_ptl_base_send_recv`. -/
structure SendRecvOut where
  status : Int
  retainedPeer : Option Nat
  shifted : Option PtlSr

/-- Observable outcome of `send_oneway`: returned status, the peer
retained, and the request handed to `PMIX_THREADSHIFT` bound to
`pmix_ptl_base_send`. -/
structure SendOnewayOut where
  status : Int
  retainedPeer : Option Nat
  shifted : Option PtlQueue

/-- `send_recv` (ptl_usock.c:190-210): construct the request, retain the
peer, thread-shift, return success. -/
def send_recv (peer bfr cbfunc cbdata : Nat) : SendRecvOut :=
  { status := PMIX_SUCCESS
    retainedPeer := some peer
    shifted := some ⟨peer, bfr, cbfunc, cbdata⟩ }

/-- `send_oneway` (ptl_usock.c:212-230): construct the request, retain
the peer, thread-shift, return success. -/
def send_oneway (peer buf tag : Nat) : SendOnewayOut :=
  { status := PMIX_SUCCESS
    retainedPeer := some peer
    shifted := some ⟨peer, buf, tag⟩ }

/-! ## Hypothesis bundles and concrete example inputs -/

/-- NUL-freeness hypotheses and the credential-length contract used by
the framing theorem, bundled for readability. -/
def framingHyp (inp : SendAckInput) : Prop :=
  (∀ b ∈ inp.myNspace, b ≠ 0) ∧ (∀ b ∈ inp.version, b ≠ 0)
  ∧ (∀ b ∈ inp.cred.getD [], b ≠ 0) ∧ (∀ b ∈ inp.sec, b ≠ 0)
  ∧ inp.credLen = strlenB (inp.cred.getD [])
  ∧ inp.myRank < 4294967296

instance (inp : SendAckInput) : Decidable (framingHyp inp) := by
  unfold framingHyp
  infer_instance

/-- A concrete well-formed handshake input used by the witnesses. -/
def exSend : SendAckInput :=
  { myNspace := [102, 111, 111], myRank := 5, version := [50, 46, 48]
    credRC := 0, cred := some [99], credLen := 1
    sec := [110, 97, 116], dstore := false, debug := false
    mallocOK := true, sendOK := true }

/-- A concrete receive environment taking the handshake branch. -/
def exRecvHs : RecvAckEnv :=
  { getsockoptErr := none, setTimeoutOK := true, replyRC := 0
    replyVal := PMIX_ERR_READY_FOR_HANDSHAKE, handshakeRC := 0
    pindexRC := 0, pindexVal := 4, restoreOK := true }

/-- A concrete receive environment whose transport lacks the
receive-timeout option. -/
def exRecvNoOpt : RecvAckEnv :=
  { getsockoptErr := some ENOPROTOOPT, setTimeoutOK := true, replyRC := 0
    replyVal := 0, handshakeRC := 0, pindexRC := 0, pindexVal := 4
    restoreOK := true }

/-- A concrete receive environment with a working timeout option. -/
def exRecvOK : RecvAckEnv :=
  { getsockoptErr := none, setTimeoutOK := true, replyRC := 0
    replyVal := 0, handshakeRC := 0, pindexRC := 0, pindexVal := 7
    restoreOK := true }

/-- A connect environment in which every step succeeds. -/
def exEnvOK : ConnectEnv :=
  { isClient := true, serverURI := some "myjob:3:/tmp/pmix.sock".data
    accessOK := true, connectRC := 0, connectSd := 12
    sendInput := exSend, recvEnv := exRecvOK }

/-- The pristine global state at process start. -/
def st0 : GlobalState :=
  { connected := false, pindex := -1, myserverSd := -1
    myserverInfo := none, nonblocking := false, recvEvAssigned := false
    recvEvActive := false, sendEvAssigned := false, sendEvActive := false
    recvAddCount := 0, closeCount := 0, socketsOpened := 0 }

/-- The global state after one successful `connect_to_peer`. -/
def exStConnected : GlobalState :=
  { connected := true, pindex := 7, myserverSd := 12
    myserverInfo := some ⟨"myjob".data, 3⟩, nonblocking := true
    recvEvAssigned := true, recvEvActive := true, sendEvAssigned := true
    sendEvActive := false, recvAddCount := 1, closeCount := 0
    socketsOpened := 1 }

/-- A connect environment whose descriptor carries the rank text `7x`. -/
def exEnv7x : ConnectEnv :=
  { exEnvOK with serverURI := some "myjob:7x:/tmp/pmix.sock".data }

/-- A connect environment whose caller is not a client. -/
def exEnvNonClient : ConnectEnv := { exEnvOK with isClient := false }

/-- A connect environment with no rendezvous descriptor present. -/
def exEnvNoURI : ConnectEnv := { exEnvOK with serverURI := none }

/-- A connect environment whose descriptor has too few fields. -/
def exEnvBadURI : ConnectEnv :=
  { exEnvOK with serverURI := some "myjob/tmp/pmix.sock".data }

/-- A connect environment whose rendezvous path is not accessible. -/
def exEnvNoAccess : ConnectEnv := { exEnvOK with accessOK := false }

/-- A connect environment whose blocking handshake send fails. -/
def exEnvSendFail : ConnectEnv :=
  { exEnvOK with sendInput := { exSend with sendOK := false } }

/-- A connect environment whose acknowledgment carries an error status. -/
def exEnvRecvFail : ConnectEnv :=
  { exEnvOK with recvEnv := { exRecvOK with replyVal := -5 } }

/-! ## Helper lemmas -/

theorem cbytes_eq (s : List Nat) (h : ∀ b ∈ s, b ≠ 0) : cbytes s = s := by
  induction s with
  | nil => rfl
  | cons a t ih =>
    have ha : a ≠ 0 := h a (List.mem_cons_self a t)
    have ht : ∀ b ∈ t, b ≠ 0 := fun b hb => h b (List.mem_cons_of_mem a hb)
    simp only [cbytes] at ih ⊢
    rw [List.takeWhile_cons]
    simp only [ha, decide_not, ih ht]
    simp [ha]
    exact ht

theorem strlenB_eq (s : List Nat) (h : ∀ b ∈ s, b ≠ 0) :
    strlenB s = s.length := by
  have := cbytes_eq s h
  simp only [strlenB, cbytes] at this ⊢
  rw [this]

theorem readCString_append (s r : List Nat) (h : ∀ b ∈ s, b ≠ 0) :
    readCString (s ++ 0 :: r) = (s, r) := by
  induction s with
  | nil => simp [readCString]
  | cons a t ih =>
    have ha : a ≠ 0 := h a (List.mem_cons_self a t)
    have ht : ∀ b ∈ t, b ≠ 0 := fun b hb => h b (List.mem_cons_of_mem a hb)
    simp only [List.cons_append, readCString, List.append_eq]
    simp [ha, ih ht]

theorem decodeIntLE_intLE (n : Nat) (h : n < 4294967296) :
    decodeIntLE (n % 256) (n / 256 % 256) (n / 65536 % 256)
      (n / 16777216 % 256) = n := by
  unfold decodeIntLE
  omega

theorem take_len_succ {α : Type} (l : List α) (x : α) (r : List α) :
    (l ++ x :: r).take (l.length + 1) = l ++ [x] := by
  induction l with
  | nil => simp
  | cons a t ih => simpa using ih

theorem written_len (inp : SendAckInput)
    (hlen : inp.credLen = strlenB (inp.cred.getD [])) :
    (writtenFields inp).length + 1 = hdrNbytes inp := by
  cases hc : inp.cred with
  | none =>
    simp only [hc, Option.getD_none, strlenB] at hlen
    simp [writtenFields, hdrNbytes, hc, cbytes, strlenB, intLE, hlen]
    omega
  | some c =>
    simp only [hc, Option.getD_some] at hlen
    simp [writtenFields, hdrNbytes, hc, cbytes, strlenB, intLE, hlen]
    omega

theorem sentPayload_eq (inp : SendAckInput)
    (hlen : inp.credLen = strlenB (inp.cred.getD [])) :
    sentPayload inp = writtenFields inp ++ [0] := by
  rw [sentPayload, ← written_len inp hlen, List.replicate_succ]
  exact take_len_succ _ _ _

theorem unmarshalAck_correct (ns : List Nat) (rank : Nat)
    (ver cred sec bfr : List Nat) (f : Nat) (gds : List Nat)
    (hns : ∀ b ∈ ns, b ≠ 0) (hver : ∀ b ∈ ver, b ≠ 0)
    (hcred : ∀ b ∈ cred, b ≠ 0) (hsec : ∀ b ∈ sec, b ≠ 0)
    (hbfr : ∀ b ∈ bfr, b ≠ 0) (hgds : ∀ b ∈ gds, b ≠ 0)
    (hrank : rank < 4294967296) :
    unmarshalAck
      (ns ++ 0 :: (intLE rank ++ (ver ++ 0 :: (cred ++ 0 ::
        (sec ++ 0 :: (bfr ++ 0 :: (f :: (gds ++ 0 :: [])))))))) =
      some ⟨ns, rank, ver, cred, sec, bfr, f, gds⟩ := by
  simp only [unmarshalAck, readCString_append _ _ hns, intLE,
    List.cons_append, List.nil_append, readCString_append _ _ hver,
    readCString_append _ _ hcred, readCString_append _ _ hsec,
    readCString_append _ _ hbfr, readCString_append _ _ hgds,
    decodeIntLE_intLE rank hrank]

/-! ## Claim theorems -/

/-- Claim C1: for every handshake message assembled by
`send_connect_ack` from well-formed inputs (NUL-free string fields, a
credential length matching the blob, a 32-bit rank), the header field
`nbytes` computed before allocation equals exactly the number of payload
bytes laid out after the header, and unmarshaling the marshaled bytes
reproduces the exact field values in the fixed field order. -/
theorem send_connect_ack_framing (inp : SendAckInput)
    (h : framingHyp inp) :
    (connectHdr inp).nbytes = (sentPayload inp).length
    ∧ unmarshalAck (sentPayload inp) =
        some ⟨inp.myNspace, inp.myRank, inp.version, inp.cred.getD [],
              inp.sec, bfropsBytes, flagByte inp.debug,
              gdsBytes inp.dstore⟩ := by
  obtain ⟨hns, hver, hcred, hsec, hlen, hrank⟩ := h
  have hpay := sentPayload_eq inp hlen
  have hwl := written_len inp hlen
  constructor
  · show hdrNbytes inp = (sentPayload inp).length
    rw [hpay, List.length_append]
    simp only [List.length_singleton]
    omega
  · have hbfr : ∀ b ∈ bfropsBytes, b ≠ 0 := by decide
    have hgds : ∀ b ∈ gdsBytes inp.dstore, b ≠ 0 := by
      cases inp.dstore <;> decide
    have hshape : sentPayload inp =
        inp.myNspace ++ 0 :: (intLE inp.myRank ++ (inp.version ++ 0 ::
          (inp.cred.getD [] ++ 0 :: (inp.sec ++ 0 ::
            (bfropsBytes ++ 0 :: (flagByte inp.debug ::
              (gdsBytes inp.dstore ++ 0 :: []))))))) := by
      rw [hpay]
      cases hc : inp.cred with
      | none =>
        simp [writtenFields, hc, cbytes_eq _ hns, cbytes_eq _ hver,
          cbytes_eq _ hsec, cbytes_eq _ hbfr, cbytes_eq _ hgds]
      | some c =>
        simp only [hc, Option.getD_some] at hcred ⊢
        simp [writtenFields, hc, cbytes_eq _ hns, cbytes_eq _ hver,
          cbytes_eq _ hcred, cbytes_eq _ hsec, cbytes_eq _ hbfr,
          cbytes_eq _ hgds]
    rw [hshape]
    exact unmarshalAck_correct _ _ _ _ _ _ _ _ hns hver hcred hsec
      hbfr hgds hrank

theorem send_connect_ack_framing_witness :
    framingHyp exSend
    ∧ ((connectHdr exSend).nbytes = (sentPayload exSend).length
       ∧ unmarshalAck (sentPayload exSend) =
           some ⟨[102, 111, 111], 5, [50, 46, 48], [99], [110, 97, 116],
                 bfropsBytes, 1, gdsBytes false⟩) :=
  ⟨by decide, send_connect_ack_framing exSend (by decide)⟩

/-- Claim C3: in `recv_connect_ack`, for every status value read from the
server, the ready-for-handshake sentinel triggers `client_handshake`
(whose failure aborts with its error before the peer index is read, and
whose success continues to the peer-index read); any other non-success
status aborts returning that status verbatim; and the peer index is read
and stored only after a success or a successful handshake. -/
theorem recv_connect_ack_status_dispatch (env : RecvAckEnv)
    (hsetup : env.getsockoptErr = some ENOPROTOOPT
              ∨ (env.getsockoptErr = none ∧ env.setTimeoutOK = true))
    (hread : env.replyRC = PMIX_SUCCESS) :
    (env.replyVal = PMIX_ERR_READY_FOR_HANDSHAKE →
       (recv_connect_ack env).handshakeInvoked = true
       ∧ (env.handshakeRC ≠ PMIX_SUCCESS →
            (recv_connect_ack env).status = env.handshakeRC
            ∧ (recv_connect_ack env).pindexReadTried = false)
       ∧ (env.handshakeRC = PMIX_SUCCESS →
            (recv_connect_ack env).pindexReadTried = true))
    ∧ (env.replyVal ≠ PMIX_ERR_READY_FOR_HANDSHAKE →
         env.replyVal ≠ PMIX_SUCCESS →
         (recv_connect_ack env).status = env.replyVal
         ∧ (recv_connect_ack env).pindexReadTried = false
         ∧ (recv_connect_ack env).handshakeInvoked = false)
    ∧ (env.replyVal = PMIX_SUCCESS →
         (recv_connect_ack env).pindexReadTried = true)
    ∧ ((recv_connect_ack env).pindexReadTried = true →
         env.replyVal = PMIX_SUCCESS
         ∨ (env.replyVal = PMIX_ERR_READY_FOR_HANDSHAKE
            ∧ env.handshakeRC = PMIX_SUCCESS))
    ∧ ((recv_connect_ack env).pindexWritten.isSome = true →
         (recv_connect_ack env).pindexReadTried = true) := by
  by_cases hv : env.replyVal = PMIX_ERR_READY_FOR_HANDSHAKE <;>
  by_cases hh : env.handshakeRC = PMIX_SUCCESS <;>
  by_cases hvs : env.replyVal = PMIX_SUCCESS <;>
  by_cases hp : env.pindexRC = PMIX_SUCCESS <;>
  by_cases hr : env.restoreOK = true <;>
  rcases hsetup with hs | ⟨hs1, hs2⟩ <;>
  simp_all [recv_connect_ack, recvBody, afterAck, PMIX_SUCCESS,
    PMIX_ERR_READY_FOR_HANDSHAKE, PMIX_ERR_UNREACH]

theorem recv_connect_ack_status_dispatch_witness :
    (recv_connect_ack exRecvHs).handshakeInvoked = true
    ∧ (recv_connect_ack exRecvHs).pindexReadTried = true :=
  ⟨((recv_connect_ack_status_dispatch exRecvHs (Or.inr ⟨rfl, rfl⟩)
      rfl).1 rfl).1,
   ((recv_connect_ack_status_dispatch exRecvHs (Or.inr ⟨rfl, rfl⟩)
      rfl).1 rfl).2.2 rfl⟩

theorem afterAck_timeoutSet (env : RecvAckEnv) (s t h : Bool) :
    (afterAck env s t h).timeoutSet = t := by
  unfold afterAck
  split_ifs <;> rfl

theorem recvBody_timeoutSet (env : RecvAckEnv) (s t : Bool) :
    (recvBody env s t).timeoutSet = t := by
  unfold recvBody
  split_ifs <;> simp [afterAck_timeoutSet]

theorem recvBody_restoreTried (env : RecvAckEnv) (t : Bool) :
    (recvBody env false t).restoreTried = false := by
  unfold recvBody afterAck
  split_ifs <;> simp_all

/-- Claim C5: `recv_connect_ack` installs the 2-second receive timeout
only when the `SO_RCVTIMEO` query succeeds; when the query fails with
`ENOPROTOOPT` it proceeds without a timeout instead of failing (and then
succeeds whenever the two reads succeed, never touching the restore
call); and after a successful read of the peer index with a saved
setting, the saved receive-timeout is restored. -/
theorem recv_connect_ack_timeout_handling (env : RecvAckEnv) :
    ((recv_connect_ack env).timeoutSet = true → env.getsockoptErr = none)
    ∧ (env.getsockoptErr = some ENOPROTOOPT →
         recv_connect_ack env = recvBody env false false
         ∧ (recv_connect_ack env).restoreTried = false
         ∧ (env.replyRC = PMIX_SUCCESS → env.replyVal = PMIX_SUCCESS →
            env.pindexRC = PMIX_SUCCESS →
            (recv_connect_ack env).status = PMIX_SUCCESS))
    ∧ (env.getsockoptErr = none → env.setTimeoutOK = true →
         env.replyRC = PMIX_SUCCESS →
         (env.replyVal = PMIX_SUCCESS
          ∨ (env.replyVal = PMIX_ERR_READY_FOR_HANDSHAKE
             ∧ env.handshakeRC = PMIX_SUCCESS)) →
         env.pindexRC = PMIX_SUCCESS →
         (recv_connect_ack env).restoreTried = true
         ∧ (recv_connect_ack env).timeoutSet = true) := by
  refine ⟨?_, ?_, ?_⟩
  · rcases hg : env.getsockoptErr with _ | e
    · intro _
      rfl
    · simp only [recv_connect_ack, hg]
      split_ifs
      · simp [recvBody_timeoutSet]
      · intro h
        exact absurd h (by simp)
  · intro hg
    have heq : recv_connect_ack env = recvBody env false false := by
      simp [recv_connect_ack, hg]
    refine ⟨heq, ?_, ?_⟩
    · rw [heq]
      exact recvBody_restoreTried env false
    · intro h1 h2 h3
      rw [heq]
      simp [recvBody, afterAck, h1, h2, h3, PMIX_SUCCESS,
        PMIX_ERR_READY_FOR_HANDSHAKE]
  · intro hg ht h1 hor h3
    have heq : recv_connect_ack env = recvBody env true true := by
      simp [recv_connect_ack, hg, ht]
    rw [heq]
    rcases hor with h2 | ⟨h2, hh⟩ <;>
    by_cases hr : env.restoreOK = true <;>
    simp [recvBody, afterAck, h1, h2, h3, hr, PMIX_SUCCESS,
      PMIX_ERR_READY_FOR_HANDSHAKE]
    · simp [hh, PMIX_SUCCESS]
    · simp [hh, PMIX_SUCCESS]

theorem recv_connect_ack_timeout_handling_witness :
    ((recv_connect_ack exRecvNoOpt).restoreTried = false
     ∧ (recv_connect_ack exRecvNoOpt).status = PMIX_SUCCESS)
    ∧ ((recv_connect_ack exRecvOK).restoreTried = true
       ∧ (recv_connect_ack exRecvOK).timeoutSet = true) :=
  ⟨⟨((recv_connect_ack_timeout_handling exRecvNoOpt).2.1 rfl).2.1,
    ((recv_connect_ack_timeout_handling exRecvNoOpt).2.1 rfl).2.2
      rfl rfl rfl⟩,
   (recv_connect_ack_timeout_handling exRecvOK).2.2 rfl rfl rfl
     (Or.inl rfl) rfl⟩

theorem connect_status_ignores_state (env : ConnectEnv)
    (st1 st2 : GlobalState) :
    (connect_to_peer env st1).1 = (connect_to_peer env st2).1 := by
  by_cases hc : env.isClient = false
  · simp [connect_to_peer, hc]
  rcases hu : env.serverURI with _ | evar
  · simp [connect_to_peer, hc, hu]
  simp [connect_to_peer, connectWithURI, hc, hu]
  split_ifs <;> rfl

theorem connect_success_state (env : ConnectEnv) (st : GlobalState)
    (h : (connect_to_peer env st).1 = PMIX_SUCCESS) :
    (connect_to_peer env st).2.connected = true
    ∧ (connect_to_peer env st).2.nonblocking = true
    ∧ (connect_to_peer env st).2.recvEvAssigned = true
    ∧ (connect_to_peer env st).2.recvEvActive = true
    ∧ (connect_to_peer env st).2.sendEvAssigned = true
    ∧ (connect_to_peer env st).2.sendEvActive = false
    ∧ (connect_to_peer env st).2.recvAddCount = st.recvAddCount + 1
    ∧ (connect_to_peer env st).2.socketsOpened = st.socketsOpened + 1 := by
  by_cases hc : env.isClient = false
  · simp [connect_to_peer, hc, PMIX_ERR_NOT_SUPPORTED, PMIX_SUCCESS] at h
  rcases hu : env.serverURI with _ | evar
  · simp [connect_to_peer, hc, hu, PMIX_ERR_SERVER_NOT_AVAIL,
      PMIX_SUCCESS] at h
  by_cases h3 : (argvSplit evar).length = 3
  · by_cases ha : env.accessOK = false
    · simp [connect_to_peer, connectWithURI, hc, hu, h3, ha,
        PMIX_ERR_NOT_FOUND, PMIX_SUCCESS] at h
    by_cases hrc : env.connectRC = PMIX_SUCCESS
    · by_cases hs : send_connect_ack env.sendInput = PMIX_SUCCESS
      · by_cases hr : (recv_connect_ack env.recvEnv).status = PMIX_SUCCESS
        · simp [connect_to_peer, connectWithURI, hc, hu, h3, ha, hrc,
            hs, hr]
        · simp [connect_to_peer, connectWithURI, hc, hu, h3, ha, hrc,
            hs, hr, closeSocket] at h
      · simp [connect_to_peer, connectWithURI, hc, hu, h3, ha, hrc,
          hs, closeSocket] at h
    · simp [connect_to_peer, connectWithURI, hc, hu, h3, ha, hrc] at h
  · simp [connect_to_peer, hc, hu, h3, PMIX_ERROR, PMIX_SUCCESS] at h

theorem connect_fail_effects (env : ConnectEnv) (st : GlobalState)
    (evar : List Char)
    (hc : env.isClient = true) (hu : env.serverURI = some evar)
    (h3 : (argvSplit evar).length = 3) (ha : env.accessOK = true)
    (hrc : env.connectRC = PMIX_SUCCESS)
    (hfail : send_connect_ack env.sendInput ≠ PMIX_SUCCESS
             ∨ (recv_connect_ack env.recvEnv).status ≠ PMIX_SUCCESS) :
    (connect_to_peer env st).1 ≠ PMIX_SUCCESS
    ∧ (connect_to_peer env st).2.closeCount = st.closeCount + 1
    ∧ (connect_to_peer env st).2.connected = st.connected
    ∧ (connect_to_peer env st).2.myserverSd = env.connectSd := by
  by_cases hs : send_connect_ack env.sendInput = PMIX_SUCCESS
  · have hr : (recv_connect_ack env.recvEnv).status ≠ PMIX_SUCCESS := by
      rcases hfail with hf | hf
      · exact absurd hs hf
      · exact hf
    simp [connect_to_peer, connectWithURI, hc, hu, h3, ha, hrc, hs, hr,
      closeSocket]
  · simp [connect_to_peer, connectWithURI, hc, hu, h3, ha, hrc, hs,
      closeSocket]

/-- Claim C6: `connect_to_peer` checks its preconditions in order and
maps each violation to its own error before opening any socket: a
non-client caller fails with `PMIX_ERR_NOT_SUPPORTED`; an absent
`PMIX_SERVER_URI` fails with `PMIX_ERR_SERVER_NOT_AVAIL`; a descriptor
that does not split into exactly 3 fields fails with the malformed
descriptor error `PMIX_ERROR`; a descriptor whose path fails the
`access` check fails with `PMIX_ERR_NOT_FOUND` with no socket opened. -/
theorem connect_precondition_errors (env : ConnectEnv) (st : GlobalState) :
    (env.isClient = false →
       connect_to_peer env st = (PMIX_ERR_NOT_SUPPORTED, st))
    ∧ (env.isClient = true → env.serverURI = none →
         connect_to_peer env st = (PMIX_ERR_SERVER_NOT_AVAIL, st))
    ∧ (∀ evar, env.isClient = true → env.serverURI = some evar →
         (argvSplit evar).length ≠ 3 →
         connect_to_peer env st = (PMIX_ERROR, st))
    ∧ (∀ evar, env.isClient = true → env.serverURI = some evar →
         (argvSplit evar).length = 3 → env.accessOK = false →
         (connect_to_peer env st).1 = PMIX_ERR_NOT_FOUND
         ∧ (connect_to_peer env st).2.socketsOpened = st.socketsOpened) := by
  refine ⟨?_, ?_, ?_, ?_⟩
  · intro hc
    simp [connect_to_peer, hc]
  · intro hc hu
    simp [connect_to_peer, hc, hu]
  · intro evar hc hu h3
    simp [connect_to_peer, hc, hu, h3]
  · intro evar hc hu h3 ha
    simp [connect_to_peer, connectWithURI, hc, hu, h3, ha]

theorem connect_precondition_errors_witness :
    connect_to_peer exEnvNonClient st0 = (PMIX_ERR_NOT_SUPPORTED, st0)
    ∧ connect_to_peer exEnvNoURI st0 = (PMIX_ERR_SERVER_NOT_AVAIL, st0)
    ∧ connect_to_peer exEnvBadURI st0 = (PMIX_ERROR, st0)
    ∧ (connect_to_peer exEnvNoAccess st0).1 = PMIX_ERR_NOT_FOUND :=
  ⟨(connect_precondition_errors exEnvNonClient st0).1 rfl,
   (connect_precondition_errors exEnvNoURI st0).2.1 rfl rfl,
   (connect_precondition_errors exEnvBadURI st0).2.2.1 _ rfl rfl
     (by decide),
   ((connect_precondition_errors exEnvNoAccess st0).2.2.2 _ rfl rfl
     (by decide) rfl).1⟩

/-- Claim C4: on every failing execution of `connect_to_peer` after the
socket has been opened (a `send_connect_ack` or `recv_connect_ack`
failure), the just-opened descriptor is closed exactly once before
returning, and the process-wide connection-established flag is never set
on any such failure path. -/
theorem connect_failure_closes_socket_once (env : ConnectEnv)
    (st : GlobalState) (evar : List Char)
    (hc : env.isClient = true) (hu : env.serverURI = some evar)
    (h3 : (argvSplit evar).length = 3) (ha : env.accessOK = true)
    (hrc : env.connectRC = PMIX_SUCCESS)
    (hfail : send_connect_ack env.sendInput ≠ PMIX_SUCCESS
             ∨ (recv_connect_ack env.recvEnv).status ≠ PMIX_SUCCESS) :
    (connect_to_peer env st).1 ≠ PMIX_SUCCESS
    ∧ (connect_to_peer env st).2.closeCount = st.closeCount + 1
    ∧ (connect_to_peer env st).2.connected = st.connected :=
  ⟨(connect_fail_effects env st evar hc hu h3 ha hrc hfail).1,
   (connect_fail_effects env st evar hc hu h3 ha hrc hfail).2.1,
   (connect_fail_effects env st evar hc hu h3 ha hrc hfail).2.2.1⟩

theorem connect_failure_closes_socket_once_witness :
    (connect_to_peer exEnvSendFail st0).1 ≠ PMIX_SUCCESS
    ∧ (connect_to_peer exEnvSendFail st0).2.closeCount = 1
    ∧ (connect_to_peer exEnvSendFail st0).2.connected = false :=
  connect_failure_closes_socket_once exEnvSendFail st0 _ rfl rfl
    (by decide) rfl rfl (Or.inl (by decide))

/-- Claim C10: `connect_to_peer` stores the newly-opened descriptor into
the global server-peer state before the handshake begins, and on a
handshake failure it closes the descriptor without resetting that field,
so the global server-peer state still holds the now-closed descriptor
value. -/
theorem connect_failure_keeps_stale_sd (env : ConnectEnv)
    (st : GlobalState) (evar : List Char)
    (hc : env.isClient = true) (hu : env.serverURI = some evar)
    (h3 : (argvSplit evar).length = 3) (ha : env.accessOK = true)
    (hrc : env.connectRC = PMIX_SUCCESS)
    (hfail : send_connect_ack env.sendInput ≠ PMIX_SUCCESS
             ∨ (recv_connect_ack env.recvEnv).status ≠ PMIX_SUCCESS) :
    (connect_to_peer env st).2.myserverSd = env.connectSd
    ∧ (connect_to_peer env st).2.closeCount = st.closeCount + 1 :=
  ⟨(connect_fail_effects env st evar hc hu h3 ha hrc hfail).2.2.2,
   (connect_fail_effects env st evar hc hu h3 ha hrc hfail).2.1⟩

theorem connect_failure_keeps_stale_sd_witness :
    (connect_to_peer exEnvRecvFail st0).2.myserverSd = 12
    ∧ (connect_to_peer exEnvRecvFail st0).2.closeCount = 1 :=
  connect_failure_keeps_stale_sd exEnvRecvFail st0 _ rfl rfl
    (by decide) rfl rfl (Or.inr (by decide))

/-- Claim C8: on every successful return of `connect_to_peer`, the
process-wide connection-established flag is set, the socket is
non-blocking, the persistent read-interest event source is registered
and active, and the write-interest event source is assigned but
inactive. -/
theorem connect_success_postconditions (env : ConnectEnv)
    (st : GlobalState)
    (h : (connect_to_peer env st).1 = PMIX_SUCCESS) :
    (connect_to_peer env st).2.connected = true
    ∧ (connect_to_peer env st).2.nonblocking = true
    ∧ (connect_to_peer env st).2.recvEvAssigned = true
    ∧ (connect_to_peer env st).2.recvEvActive = true
    ∧ (connect_to_peer env st).2.sendEvAssigned = true
    ∧ (connect_to_peer env st).2.sendEvActive = false :=
  ⟨(connect_success_state env st h).1,
   (connect_success_state env st h).2.1,
   (connect_success_state env st h).2.2.1,
   (connect_success_state env st h).2.2.2.1,
   (connect_success_state env st h).2.2.2.2.1,
   (connect_success_state env st h).2.2.2.2.2.1⟩

theorem connect_success_postconditions_witness :
    (connect_to_peer exEnvOK st0).2.connected = true
    ∧ (connect_to_peer exEnvOK st0).2.nonblocking = true
    ∧ (connect_to_peer exEnvOK st0).2.recvEvAssigned = true
    ∧ (connect_to_peer exEnvOK st0).2.recvEvActive = true
    ∧ (connect_to_peer exEnvOK st0).2.sendEvAssigned = true
    ∧ (connect_to_peer exEnvOK st0).2.sendEvActive = false :=
  connect_success_postconditions exEnvOK st0 (by decide)

/-- Claim C2 is refuted by this counterexample: starting from the state
left by one successful connect (established flag set, one live read
registration), a second `connect_to_peer` call succeeds again and issues
a second `pmix_event_add` on the read event — the established flag does
not gate re-registration. -/
theorem connect_reregisters_when_connected :
    exStConnected.connected = true
    ∧ (connect_to_peer exEnvOK exStConnected).1 = PMIX_SUCCESS
    ∧ (connect_to_peer exEnvOK exStConnected).2.recvAddCount = 2 :=
  ⟨rfl, by decide, by decide⟩

/-- Claim C2 (amended): `connect_to_peer` never consults the process-wide
established flag — its returned status is independent of that flag (and
of the whole prior state) — and every successful call registers the read
event source again, incrementing the registration count. -/
theorem connect_no_established_gate (env : ConnectEnv)
    (st : GlobalState) (b : Bool) :
    (connect_to_peer env { st with connected := b }).1
      = (connect_to_peer env st).1
    ∧ ((connect_to_peer env st).1 = PMIX_SUCCESS →
         (connect_to_peer env st).2.recvAddCount = st.recvAddCount + 1) :=
  ⟨connect_status_ignores_state env { st with connected := b } st,
   fun h => (connect_success_state env st h).2.2.2.2.2.2.1⟩

theorem connect_no_established_gate_witness :
    (connect_to_peer exEnvOK { exStConnected with connected := false }).1
      = (connect_to_peer exEnvOK exStConnected).1
    ∧ (connect_to_peer exEnvOK exStConnected).2.recvAddCount = 2 :=
  ⟨(connect_no_established_gate exEnvOK exStConnected false).1,
   (connect_no_established_gate exEnvOK exStConnected false).2
     (by decide)⟩

theorem stripSign_mem (l : List Char) :
    ∀ c ∈ (stripSign l).2, c ∈ l := by
  cases l with
  | nil => simp [stripSign]
  | cons a t =>
    simp only [stripSign]
    split_ifs <;> intro c hc <;> simp_all

theorem digitsVal_zero (l : List Char) (h : ∀ c ∈ l, ¬ c.isDigit = true) :
    digitsVal l 0 = 0 := by
  cases l with
  | nil => rfl
  | cons a t =>
    have := h a (List.mem_cons_self a t)
    simp [digitsVal, this]

theorem strtoull10_zero (s : List Char)
    (h : ∀ c ∈ s, ¬ c.isDigit = true) : strtoull10 s = 0 := by
  have hdw : ∀ c ∈ s.dropWhile (fun c => c.isWhitespace), ¬ c.isDigit = true :=
    fun c hc => h c ((s.dropWhile_sublist _).subset hc)
  have hss : ∀ c ∈ (stripSign (s.dropWhile (fun c => c.isWhitespace))).2,
      ¬ c.isDigit = true :=
    fun c hc => hdw c (stripSign_mem _ c hc)
  simp only [strtoull10]
  rw [digitsVal_zero _ hss]
  split_ifs <;> omega

theorem connectWithURI_status_ignores_uri (u1 u2 : List (List Char))
    (env : ConnectEnv) (st : GlobalState) :
    (connectWithURI u1 env st).1 = (connectWithURI u2 env st).1 := by
  simp [connectWithURI]
  split_ifs <;> rfl

/-- Claim C7 is refuted by this counterexample: the descriptor field
`7x` is not valid unsigned-integer text, yet `connect_to_peer` stores
the server rank 7 (the value of the parsable prefix), not 0, while still
returning success. -/
theorem rank_text_counterexample :
    validUnsignedText "7x".data = false
    ∧ (connect_to_peer exEnv7x st0).1 = PMIX_SUCCESS
    ∧ ((connect_to_peer exEnv7x st0).2.myserverInfo.getD ⟨[], 0⟩).rank = 7
    ∧ ((connect_to_peer exEnv7x st0).2.myserverInfo.getD ⟨[], 0⟩).rank
        ≠ 0 :=
  ⟨by decide, by decide, by decide, by decide⟩

/-- Claim C7 (amended): rank parsing is permissive — the connect status
never depends on the rank field's text, and a rank field containing no
digits at all stores rank 0; but a field with a parsable numeric prefix
(such as `7x`) stores that prefix's value rather than 0. -/
theorem rank_parse_permissive (uri : List (List Char)) (env : ConnectEnv)
    (st : GlobalState) (s t : List Char)
    (hnd : ∀ c ∈ s, ¬ c.isDigit = true) :
    parseRank s = 0
    ∧ (connectWithURI (uri.set 1 s) env st).1
        = (connectWithURI (uri.set 1 t) env st).1 :=
  ⟨by
     unfold parseRank
     rw [strtoull10_zero s hnd],
   connectWithURI_status_ignores_uri _ _ env st⟩

theorem rank_parse_permissive_witness :
    parseRank "xyz".data = 0
    ∧ (connectWithURI (["ns".data, "q".data, "/p".data].set 1 "xyz".data)
         exEnvOK st0).1
        = (connectWithURI (["ns".data, "q".data, "/p".data].set 1
             "3".data) exEnvOK st0).1 :=
  rank_parse_permissive ["ns".data, "q".data, "/p".data] exEnvOK st0
    "xyz".data "3".data (by decide)

/-- Claim C9: for every peer, buffer, callback and tag argument, the
submission entry points `send_recv` and `send_oneway` return the success
status unconditionally, retain the peer, construct the request object
with exactly the given fields, and thread-shift it; they have no failure
path of their own at submission time. -/
theorem submission_always_succeeds (peer bfr cbfunc cbdata buf tag : Nat) :
    (send_recv peer bfr cbfunc cbdata).status = PMIX_SUCCESS
    ∧ (send_recv peer bfr cbfunc cbdata).retainedPeer = some peer
    ∧ (send_recv peer bfr cbfunc cbdata).shifted
        = some ⟨peer, bfr, cbfunc, cbdata⟩
    ∧ (send_oneway peer buf tag).status = PMIX_SUCCESS
    ∧ (send_oneway peer buf tag).retainedPeer = some peer
    ∧ (send_oneway peer buf tag).shifted = some ⟨peer, buf, tag⟩ :=
  ⟨rfl, rfl, rfl, rfl, rfl, rfl⟩

end PtlUsock
